import Mathlib

/-!
Verification development for the cuML execution-device interoperability
documentation.  The repository consists of the notebook
`docs/source/execution_device_interoperability.ipynb`, which documents the
device-selection API (`get_global_device_type`, `set_global_device_type`,
`using_device_type`), the dispatch behavior of estimators under an effective
device, and cross-device model serialization.  The implementation of these
APIs lives outside this repository, so the definitions below are modelled
from the specification's description of the behavior.
-/

/-- Modelled from the spec: the two execution devices, `"cpu"` and `"gpu"`.
The implementation (cuml.common.device_selection) is not part of this
repository. -/
inductive Device where
  | CPU
  | GPU
deriving DecidableEq, Repr

/-- Modelled from the spec: device-token validation.  The two recognized
string tokens are `"cpu"` and `"gpu"`; any other token is rejected. -/
def parseDevice (tok : String) : Option Device :=
  if tok = "cpu" then some Device.CPU
  else if tok = "gpu" then some Device.GPU
  else none

/-- Modelled from the spec: the error raised when a malformed device token is
passed to a selector operation. -/
inductive SelectorError where
  | InvalidDeviceError
deriving DecidableEq, Repr

/-- Modelled from the spec: the device-selector state.  `current_device` is
the field of the process-wide `GlobalDeviceState` singleton; `scope_stack`
is the stack of active scoped overrides (innermost first). -/
structure SelectorState where
  current_device : Device
  scope_stack : List Device
deriving DecidableEq, Repr

/-- Modelled from the spec: `GlobalDeviceState` is created at process start
with a default of GPU and an empty scope stack. -/
def initialState : SelectorState :=
  SelectorState.mk Device.GPU []

/-- Modelled from the spec: `get_global_device_type` returns
`GlobalDeviceState.current_device`; no side effects, never fails. -/
def get_global_device_type (s : SelectorState) : Device :=
  s.current_device

/-- Modelled from the spec: `set_global_device_type` validates the token and,
on success, replaces `GlobalDeviceState.current_device`.  On an invalid token
it raises `InvalidDeviceError` and leaves the state unchanged (the second
component carries the raised error, if any). -/
def set_global_device_type (tok : String) (s : SelectorState) :
    SelectorState × Option SelectorError :=
  match parseDevice tok with
  | some d => (SelectorState.mk d s.scope_stack, none)
  | none => (s, some SelectorError.InvalidDeviceError)

/-- Modelled from the spec: scope entry (the `__enter__` half of
`using_device_type`) validates the token and pushes the device onto the scope
stack; an invalid token raises `InvalidDeviceError` and leaves the state
unchanged. -/
def scope_enter (tok : String) (s : SelectorState) :
    SelectorState × Option SelectorError :=
  match parseDevice tok with
  | some d => (SelectorState.mk s.current_device (d :: s.scope_stack), none)
  | none => (s, some SelectorError.InvalidDeviceError)

/-- Modelled from the spec: scope exit (the `__exit__` half of
`using_device_type`) pops the scope stack, restoring the previous effective
device. -/
def scope_exit (s : SelectorState) : SelectorState :=
  SelectorState.mk s.current_device s.scope_stack.tail

/-- Modelled from the spec: effective-device resolution — the device at the
top of the scope stack if non-empty, else the global device. -/
def effective_device (s : SelectorState) : Device :=
  match s.scope_stack with
  | d :: _ => d
  | [] => s.current_device

/-- Modelled from the spec: the outcome of a block of user code run inside a
scope — either normal completion with a value, or an error raised inside the
block. -/
inductive Outcome (α : Type) where
  | ok (a : α)
  | raised
deriving DecidableEq, Repr

/-- Modelled from the spec: `using_device_type` as a scoped-acquisition
construct.  It validates the token (failing with `InvalidDeviceError` before
running the body), pushes the device onto the scope stack, runs the body, and
pops the stack on every exit path — whether the body completes normally
(`Outcome.ok`) or raises (`Outcome.raised`) — propagating the body's
outcome. -/
def using_device_type {α : Type} (tok : String)
    (body : SelectorState → SelectorState × Outcome α) (s : SelectorState) :
    SelectorState × Except SelectorError (Outcome α) :=
  match parseDevice tok with
  | none => (s, Except.error SelectorError.InvalidDeviceError)
  | some d =>
    let r := body (SelectorState.mk s.current_device (d :: s.scope_stack))
    (SelectorState.mk r.1.current_device r.1.scope_stack.tail, Except.ok r.2)

/-- Modelled from the spec: the selector operations, as a step alphabet for
stating the resolution invariant. -/
inductive SelectorOp where
  | getGlobal
  | setGlobal (tok : String)
  | scopeEnter (tok : String)
  | scopeExit

/-- Modelled from the spec: one step of a selector operation on the state
(`getGlobal` has no side effects; `scopeExit` never fails). -/
def step (op : SelectorOp) (s : SelectorState) :
    SelectorState × Option SelectorError :=
  match op with
  | SelectorOp.getGlobal => (s, none)
  | SelectorOp.setGlobal tok => set_global_device_type tok s
  | SelectorOp.scopeEnter tok => scope_enter tok s
  | SelectorOp.scopeExit => (scope_exit s, none)

/-- Modelled from the spec: what a backend (CPU or GPU implementation of an
estimator operation) offers for a given requested parameter combination —
a full implementation, an implementation that silently ignores the
unsupported parameters (as the notebook documents for cuML UMAP under an
UMAP-library-only hyperparameter), or no implementation at all. -/
inductive BackendSupport where
  | full
  | ignoresParams
  | noImpl
deriving DecidableEq, Repr

/-- Modelled from the spec: an estimator operation invocation with a fixed
requested parameter combination; `backend` reports, per device, what the
backend implementation offers for that combination (the estimator reports
this capability, not the selector). -/
structure EstimatorCall where
  backend : Device → BackendSupport

/-- Modelled from the spec: the result of dispatching an estimator
operation — execution on a device (recording whether unsupported parameters
were silently ignored), or `UnsupportedParameterError`. -/
inductive DispatchResult where
  | executed (d : Device) (ignoredParams : Bool)
  | unsupportedParameterError
deriving DecidableEq, Repr

/-- Modelled from the spec: dispatch of an estimator operation.  The call
runs on the effective device; if that device's backend has no implementation
for the requested parameter combination the call fails with
`UnsupportedParameterError` — no automatic fallback to the other device is
performed. -/
def dispatch (c : EstimatorCall) (s : SelectorState) : DispatchResult :=
  match c.backend (effective_device s) with
  | BackendSupport.full => DispatchResult.executed (effective_device s) false
  | BackendSupport.ignoresParams => DispatchResult.executed (effective_device s) true
  | BackendSupport.noImpl => DispatchResult.unsupportedParameterError

/-- Modelled from the spec: the notebook scenario `UMAP(angular_rp_forest=True)`
— the hyperparameter is only available in the UMAP library (CPU backend), so
the CPU backend implements the call fully while the GPU (cuML) backend
implements it but silently ignores the unsupported parameter. -/
def umapAngularCall : EstimatorCall :=
  EstimatorCall.mk (fun d =>
    match d with
    | Device.CPU => BackendSupport.full
    | Device.GPU => BackendSupport.ignoresParams)

/-- Modelled from the spec: a fitted estimator.  `exportSupported` is the
capability flag for cross-device export; `fitDevice` the device it was
fitted on (and is deployable on); `fittedParams` the fitted-parameter
snapshot, which is device-independent. -/
structure FittedEstimator where
  exportSupported : Bool
  fitDevice : Device
  fittedParams : List Int
deriving DecidableEq, Repr

/-- Modelled from the spec: fitting an estimator on a device produces a
fitted-parameter snapshot that depends only on the training data, not on the
device. -/
def fit (exportSupported : Bool) (d : Device) (train : List Int) :
    FittedEstimator :=
  FittedEstimator.mk exportSupported d train

/-- Modelled from the spec: a serialized model artifact — the snapshot of the
fitted estimator written by `pickle.dump`. -/
structure ModelArtifact where
  exportSupported : Bool
  fitDevice : Device
  fittedParams : List Int
deriving DecidableEq, Repr

/-- Modelled from the spec: `pickle.dump` snapshots the fitted estimator. -/
def pickle_dump (m : FittedEstimator) : ModelArtifact :=
  ModelArtifact.mk m.exportSupported m.fitDevice m.fittedParams

/-- Modelled from the spec: `pickle.load` reconstructs the fitted estimator
from the artifact. -/
def pickle_load (a : ModelArtifact) : FittedEstimator :=
  FittedEstimator.mk a.exportSupported a.fitDevice a.fittedParams

/-- Modelled from the spec: running `predict`/`transform` of a fitted
estimator on a device.  It succeeds on the device the model was fitted on,
or on the other device when the estimator supports cross-device export; the
prediction is computed from the device-independent fitted parameters. -/
def predict (m : FittedEstimator) (runDevice : Device) (x : Int) :
    Option Int :=
  if runDevice == m.fitDevice || m.exportSupported then
    some (m.fittedParams.foldl (fun acc p => acc + p * x) 0)
  else
    none

/-- Modelled from the spec: the selector state for multiple threads — one
shared `GlobalDeviceState.current_device` and an independent (thread-local)
scope stack per thread, indexed by thread id. -/
structure MTSelectorState where
  current_device : Device
  stackOf : Nat → List Device

/-- Modelled from the spec: thread `t` entering a scoped override pushes onto
its own thread-local scope stack only. -/
def mt_scope_enter (t : Nat) (d : Device) (s : MTSelectorState) :
    MTSelectorState :=
  MTSelectorState.mk s.current_device
    (fun u => if u = t then d :: s.stackOf u else s.stackOf u)

/-- Modelled from the spec: thread `t` exiting its scope pops its own
thread-local scope stack only. -/
def mt_scope_exit (t : Nat) (s : MTSelectorState) : MTSelectorState :=
  MTSelectorState.mk s.current_device
    (fun u => if u = t then (s.stackOf u).tail else s.stackOf u)

/-- Modelled from the spec: effective-device resolution for thread `t` — the
top of `t`'s own scope stack, else the global device. -/
def mt_effective (t : Nat) (s : MTSelectorState) : Device :=
  match s.stackOf t with
  | d :: _ => d
  | [] => s.current_device

/-- The resolution invariant of the spec: exactly one device is effective,
and resolution returns the top of the scope stack when it is non-empty, else
the global device. -/
def resolutionInvariant (s : SelectorState) : Prop :=
  (∃! d : Device, effective_device s = d) ∧
  (∀ d rest, s.scope_stack = d :: rest → effective_device s = d) ∧
  (s.scope_stack = [] → effective_device s = get_global_device_type s)

lemma resolutionInvariant_holds (s : SelectorState) : resolutionInvariant s := by
  refine ⟨⟨effective_device s, rfl, fun d h => h.symm⟩, ?_, ?_⟩
  · intro d rest h
    simp [effective_device, h]
  · intro h
    simp [effective_device, h, get_global_device_type]

/-- Body for the inner scope of the nested-scope scenario: it observes the
effective device inside the inner scope. -/
def innerObserve : SelectorState → SelectorState × Outcome Device :=
  fun st => (st, Outcome.ok (effective_device st))

/-- Body for the outer scope of the nested-scope scenario: it observes the
effective device at outer-scope entry, inside the nested
`using_device_type "gpu"` scope, and again after the inner scope exits. -/
def outerObserve : SelectorState → SelectorState × Outcome (Device × Device × Device) :=
  fun st =>
    let before := effective_device st
    let r := using_device_type "gpu" innerObserve st
    let inner :=
      match r.2 with
      | Except.ok (Outcome.ok d) => d
      | _ => before
    (r.1, Outcome.ok (before, inner, effective_device r.1))

/-- An estimator call whose requested parameter combination has no backend
implementation on either device. -/
def unsupportedEverywhereCall : EstimatorCall :=
  EstimatorCall.mk (fun _ => BackendSupport.noImpl)

/-- A two-thread selector state with global device GPU and empty thread-local
scope stacks. -/
def mtExample : MTSelectorState :=
  MTSelectorState.mk Device.GPU (fun _ => [])


/-- Claim C1: for every device `d` pushed by `using_device_type`, the
effective device at scope entry is `d`, and on every exit path — the body's
outcome, normal completion or a raised error, is arbitrary — the scope stack
is popped, the state is restored, and the previous effective device is
effective again (for bodies that are well bracketed and do not change the
global device). -/
theorem using_device_type_scoped_restore {α : Type} (tok : String) (d : Device)
    (body : SelectorState → SelectorState × Outcome α) (s : SelectorState)
    (htok : parseDevice tok = some d)
    (hstack : (body (SelectorState.mk s.current_device (d :: s.scope_stack))).1.scope_stack
      = d :: s.scope_stack)
    (hglobal : (body (SelectorState.mk s.current_device (d :: s.scope_stack))).1.current_device
      = s.current_device) :
    effective_device (SelectorState.mk s.current_device (d :: s.scope_stack)) = d ∧
    (using_device_type tok body s).1 = s ∧
    effective_device (using_device_type tok body s).1 = effective_device s ∧
    (using_device_type tok body s).2
      = Except.ok (body (SelectorState.mk s.current_device (d :: s.scope_stack))).2 := by
  have h1 : using_device_type tok body s
      = (SelectorState.mk
           (body (SelectorState.mk s.current_device (d :: s.scope_stack))).1.current_device
           ((body (SelectorState.mk s.current_device (d :: s.scope_stack))).1.scope_stack.tail),
         Except.ok (body (SelectorState.mk s.current_device (d :: s.scope_stack))).2) := by
    unfold using_device_type
    rw [htok]
  have h2 : (using_device_type tok body s).1 = s := by
    rw [h1, hstack, hglobal]
    rfl
  refine ⟨rfl, h2, ?_, ?_⟩
  · rw [h2]
  · rw [h1]

/-- Witness for C1, with a body that raises inside the scope. -/
theorem using_device_type_scoped_restore_witness :
    parseDevice "cpu" = some Device.CPU ∧
    (using_device_type "cpu" (fun st => (st, (Outcome.raised : Outcome Unit)))
        initialState).1 = initialState ∧
    (using_device_type "cpu" (fun st => (st, (Outcome.raised : Outcome Unit)))
        initialState).2 = Except.ok Outcome.raised := by
  refine ⟨by decide, ?_, ?_⟩
  · exact (using_device_type_scoped_restore "cpu" Device.CPU
      (fun st => (st, (Outcome.raised : Outcome Unit))) initialState
      (by decide) rfl rfl).2.1
  · exact (using_device_type_scoped_restore "cpu" Device.CPU
      (fun st => (st, (Outcome.raised : Outcome Unit))) initialState
      (by decide) rfl rfl).2.2.2

/-- Claim C2: for every valid device token, `set_global_device_type` followed
by `get_global_device_type` returns the device that token denotes, and no
error is raised. -/
theorem set_then_get (tok : String) (d : Device) (s : SelectorState)
    (h : parseDevice tok = some d) :
    get_global_device_type (set_global_device_type tok s).1 = d ∧
    (set_global_device_type tok s).2 = none := by
  unfold set_global_device_type
  rw [h]
  exact ⟨rfl, rfl⟩

/-- Witness for C2 at the token `"cpu"`. -/
theorem set_then_get_witness :
    parseDevice "cpu" = some Device.CPU ∧
    get_global_device_type (set_global_device_type "cpu" initialState).1
      = Device.CPU :=
  ⟨by decide, (set_then_get "cpu" Device.CPU initialState (by decide)).1⟩

/-- Claim C3: for every token that is not `"cpu"` or `"gpu"`, both
`set_global_device_type` and `using_device_type` fail with
`InvalidDeviceError`, and the state — in particular
`GlobalDeviceState.current_device` — is unchanged. -/
theorem invalid_token_rejected (tok : String) (s : SelectorState)
    (h : parseDevice tok = none) :
    set_global_device_type tok s = (s, some SelectorError.InvalidDeviceError) ∧
    (∀ (body : SelectorState → SelectorState × Outcome Unit),
      using_device_type tok body s
        = (s, Except.error SelectorError.InvalidDeviceError)) ∧
    (set_global_device_type tok s).1.current_device = s.current_device := by
  have h1 : set_global_device_type tok s
      = (s, some SelectorError.InvalidDeviceError) := by
    unfold set_global_device_type
    rw [h]
  refine ⟨h1, ?_, by rw [h1]⟩
  intro body
  unfold using_device_type
  rw [h]

/-- Witness for C3 at the invalid token `"tpu"`. -/
theorem invalid_token_rejected_witness :
    parseDevice "tpu" = none ∧
    set_global_device_type "tpu" initialState
      = (initialState, some SelectorError.InvalidDeviceError) ∧
    using_device_type "tpu" (fun st => (st, Outcome.ok ())) initialState
      = (initialState, Except.error SelectorError.InvalidDeviceError) := by
  refine ⟨by decide, ?_, ?_⟩
  · exact (invalid_token_rejected "tpu" initialState (by decide)).1
  · exact (invalid_token_rejected "tpu" initialState (by decide)).2.1
      (fun st => (st, Outcome.ok ()))

/-- Claim C4: exactly one device is effective in every state, resolution
returns the top of the scope stack when non-empty and the global device when
empty, and this invariant is preserved by every selector operation. -/
theorem effective_resolution_invariant (s : SelectorState) :
    resolutionInvariant s ∧
    ∀ op : SelectorOp, resolutionInvariant (step op s).1 :=
  ⟨resolutionInvariant_holds s, fun op => resolutionInvariant_holds (step op s).1⟩

/-- Witness for C4 at a state with a non-empty scope stack and at the state
reached by a scope exit. -/
theorem effective_resolution_invariant_witness :
    effective_device (SelectorState.mk Device.GPU [Device.CPU]) = Device.CPU ∧
    effective_device (step SelectorOp.scopeExit
        (SelectorState.mk Device.GPU [Device.CPU])).1
      = get_global_device_type (step SelectorOp.scopeExit
          (SelectorState.mk Device.GPU [Device.CPU])).1 :=
  ⟨(effective_resolution_invariant
      (SelectorState.mk Device.GPU [Device.CPU])).1.2.1 Device.CPU [] rfl,
   ((effective_resolution_invariant
      (SelectorState.mk Device.GPU [Device.CPU])).2 SelectorOp.scopeExit).2.2 rfl⟩

/-- Claim C5: nested scopes restore in stack order.  Starting from global
device `g` with no active scope, entering `using_device_type "cpu"` and
nesting `using_device_type "gpu"` observes CPU at the outer entry, GPU inside
the inner scope, CPU again after the inner scope exits, and after the outer
scope exits the state is restored and the effective device is the original
global default `g`. -/
theorem nested_scopes_restore (g : Device) :
    using_device_type "cpu" outerObserve (SelectorState.mk g [])
      = (SelectorState.mk g [],
         Except.ok (Outcome.ok (Device.CPU, Device.GPU, Device.CPU))) ∧
    effective_device
        (using_device_type "cpu" outerObserve (SelectorState.mk g [])).1 = g := by
  cases g <;> exact ⟨rfl, rfl⟩

/-- Claim C6: at process start, before any call to `set_global_device_type`,
the global device is GPU. -/
theorem initial_global_device_gpu :
    get_global_device_type initialState = Device.GPU := rfl

/-- Claim C7: when the requested parameter combination has no backend
implementation on the effective device, dispatch fails with
`UnsupportedParameterError` and never executes on any device — no automatic
fallback to the other device's implementation. -/
theorem unsupported_parameter_no_fallback (c : EstimatorCall) (s : SelectorState)
    (h : c.backend (effective_device s) = BackendSupport.noImpl) :
    dispatch c s = DispatchResult.unsupportedParameterError ∧
    ∀ (d : Device) (b : Bool), dispatch c s ≠ DispatchResult.executed d b := by
  have h1 : dispatch c s = DispatchResult.unsupportedParameterError := by
    unfold dispatch
    rw [h]
  refine ⟨h1, ?_⟩
  intro d b hc
  rw [h1] at hc
  exact DispatchResult.noConfusion hc

/-- Witness for C7 with a call unsupported on both devices. -/
theorem unsupported_parameter_no_fallback_witness :
    unsupportedEverywhereCall.backend (effective_device initialState)
      = BackendSupport.noImpl ∧
    dispatch unsupportedEverywhereCall initialState
      = DispatchResult.unsupportedParameterError :=
  ⟨rfl,
   (unsupported_parameter_no_fallback unsupportedEverywhereCall initialState rfl).1⟩

/-- Claim C8: for an estimator supporting cross-device export, the
fit-dump-load-predict round trip succeeds across devices: the artifact
reloads to the same fitted snapshot, and predict on the other device succeeds
with the value computed from the device-independent fitted parameters. -/
theorem cross_device_roundtrip (d d' : Device) (train : List Int) (x : Int)
    (hne : d' ≠ d) :
    pickle_load (pickle_dump (fit true d train)) = fit true d train ∧
    predict (pickle_load (pickle_dump (fit true d train))) d' x
      = some (train.foldl (fun acc p => acc + p * x) 0) := by
  refine ⟨rfl, ?_⟩
  unfold fit pickle_dump pickle_load predict
  simp

/-- Witness for C8: fit on GPU, deploy on CPU. -/
theorem cross_device_roundtrip_witness :
    Device.CPU ≠ Device.GPU ∧
    predict (pickle_load (pickle_dump (fit true Device.GPU [2, 3]))) Device.CPU 5
      = some 25 := by
  refine ⟨by decide, ?_⟩
  rw [(cross_device_roundtrip Device.GPU Device.CPU [2, 3] 5 (by decide)).2]
  decide

/-- Claim C9: a model constructed with a CPU-only hyperparameter, invoked
under `using_device_type "gpu"`, executes the GPU implementation and silently
ignores the unsupported parameter rather than raising an error. -/
theorem gpu_scope_ignores_cpu_only_param :
    (using_device_type "gpu"
        (fun st => (st, Outcome.ok (dispatch umapAngularCall st)))
        initialState).2
      = Except.ok (Outcome.ok (DispatchResult.executed Device.GPU true)) := rfl

/-- Claim C10: scoped overrides on independent threads do not interfere:
with thread-local scope stacks, thread `a` entering or exiting a scope never
changes thread `b`'s effective-device resolution, while thread `a` itself
sees its own override. -/
theorem thread_local_scopes_no_interference (a b : Nat) (d : Device)
    (s : MTSelectorState) (hab : a ≠ b) :
    mt_effective b (mt_scope_enter a d s) = mt_effective b s ∧
    mt_effective b (mt_scope_exit a s) = mt_effective b s ∧
    mt_effective a (mt_scope_enter a d s) = d := by
  have hba : ¬ (b = a) := fun hcontra => hab hcontra.symm
  refine ⟨?_, ?_, ?_⟩
  · simp [mt_effective, mt_scope_enter, hba]
  · simp [mt_effective, mt_scope_exit, hba]
  · simp [mt_effective, mt_scope_enter]

/-- Witness for C10 with threads 0 and 1. -/
theorem thread_local_scopes_no_interference_witness :
    (0 : Nat) ≠ 1 ∧
    mt_effective 1 (mt_scope_enter 0 Device.CPU mtExample)
      = mt_effective 1 mtExample ∧
    mt_effective 0 (mt_scope_enter 0 Device.CPU mtExample) = Device.CPU :=
  ⟨by decide,
   (thread_local_scopes_no_interference 0 1 Device.CPU mtExample (by decide)).1,
   (thread_local_scopes_no_interference 0 1 Device.CPU mtExample (by decide)).2.2⟩
